import Mathlib

/-!
Shallow embedding of the voice-diary backend (src/server.js) and verification
of its specification claims.

Conventions of the embedding:
* JS strings are Lean `String`s (logically `List Char`, i.e. code points); where
  character-level reasoning is needed the title pipeline works on `List Char`.
* Wall-clock readings (`Date.now()`, `new Date()`) are millisecond `Nat`
  parameters threaded explicitly.
* The in-memory `Map` `chatSessions` is an association list `Store`; `Map.set`
  (and in-place mutation of a session object fetched from the map, which in JS
  is visible through the map) is `mapSet`, `Map.get`/`has` is `mapGet`.
* Calls to the external Vertex AI generator are the only effectful suspension
  points; their outcome is passed in as a `GenOutcome` (`ok text` for a normal
  return, `fail err` for a thrown error), so each endpoint becomes a pure
  function of its inputs, the store, the clock and the provider outcome.
* Numeric JS values that can be fractional (file size in KB, durations in
  minutes before `Math.round`) are `ℚ`; `Math.round` is `jsRound`.
-/

namespace VoiceDiary

/-- JS `String.prototype.includes` on char lists: `needle` occurs contiguously
in the list. -/
def listContains (needle : List Char) : List Char → Bool
  | [] => needle.isEmpty
  | c :: t => needle.isPrefixOf (c :: t) || listContains needle t

/-- JS `hay.includes(needle)`. -/
def strIncludes (hay needle : String) : Bool :=
  listContains needle.data hay.data

/-- JS `String.prototype.toLowerCase` (ASCII range, which is all the source's
keywords need: they are Japanese and case-stable). -/
def jsToLowerCase (s : String) : String :=
  ⟨s.data.map Char.toLower⟩

/-- JS `String.prototype.trim` on a `String`. -/
def jsTrimString (s : String) : String :=
  ⟨((s.data.dropWhile fun c => c = ' ' || c = '\t' || c = '\n' || c = '\r').reverse.dropWhile
      fun c => c = ' ' || c = '\t' || c = '\n' || c = '\r').reverse⟩

/-- Result of `analyzeUserEmotion` (src/server.js:338): an emotion label and a
fixed confidence. -/
structure EmotionResult where
  type : String
  confidence : ℚ
deriving DecidableEq, Repr

/-- The `emotionKeywords` table of `analyzeUserEmotion` (src/server.js:339-343),
in JS object-insertion order: positive, then negative, then neutral. -/
def emotionEntries : List (String × List String) :=
  [("positive", ["楽しい", "嬉しい", "良かった", "素晴らしい", "幸せ", "満足", "素敵", "最高"]),
   ("negative", ["辛い", "悲しい", "困った", "イライラ", "疲れた", "大変", "辛かった", "ストレス"]),
   ("neutral", ["普通", "特に", "いつも通り", "普段通り", "まあまあ"])]

/-- The `for (const [emotion, keywords] of Object.entries(...))` loop body of
`analyzeUserEmotion` (src/server.js:347-351): first entry whose keyword list has
a substring match wins. -/
def findEmotion : List (String × List String) → String → Option String
  | [], _ => none
  | (emotion, keywords) :: rest, lowerMessage =>
    if keywords.any (fun keyword => strIncludes lowerMessage keyword) then some emotion
    else findEmotion rest lowerMessage

/-- `analyzeUserEmotion` (src/server.js:338-354): lowercase the message, scan
the keyword table in order, return the first match with confidence 0.8, else
neutral with confidence 0.5. -/
def analyzeUserEmotion (message : String) : EmotionResult :=
  match findEmotion emotionEntries (jsToLowerCase message) with
  | some emotion => { type := emotion, confidence := 8 / 10 }
  | none => { type := "neutral", confidence := 5 / 10 }

/-- Positive-emotion demo ladder of `generateDemoResponses` (src/server.js:472-477). -/
def positiveResponses : List String :=
  ["それは素晴らしいですね！どんな瞬間が一番印象的でしたか？",
   "いい体験でしたね。周りの反応はいかがでしたか？",
   "楽しそうな雰囲気が伝わってきます。他にも何か心に残ったことはありますか？",
   "今日は本当に充実した一日だったんですね。この素敵な思い出を日記にまとめてみませんか？"]

/-- Negative-emotion demo ladder of `generateDemoResponses` (src/server.js:478-483). -/
def negativeResponses : List String :=
  ["お疲れ様でした。大変だったんですね。",
   "そういう時もありますよね。どんな風に乗り越えられましたか？",
   "辛い状況だったと思います。他に何かサポートはありましたか？",
   "いろいろなことがあった一日だったんですね。お話を聞かせていただき、ありがとうございました。日記にまとめてみませんか？"]

/-- Neutral-emotion demo ladder of `generateDemoResponses` (src/server.js:484-489). -/
def neutralResponses : List String :=
  ["そうだったんですね。その時はどんな感じでしたか？",
   "なるほど。一番印象に残ったのはどの部分ですか？",
   "日常の中にも色々なことがありますね。他にも何かありましたか？",
   "お話を聞かせていただき、ありがとうございました。今日の一日を日記にまとめてみませんか？"]

/-- `generateDemoResponses` (src/server.js:470-493): pick the ladder keyed by
the emotion type, `responsesByEmotion[type] || responsesByEmotion.neutral`.
The `messageCount` argument is accepted and ignored exactly as in the source. -/
def generateDemoResponses (_messageCount : Nat) (emotionAnalysis : EmotionResult) : List String :=
  if emotionAnalysis.type = "positive" then positiveResponses
  else if emotionAnalysis.type = "negative" then negativeResponses
  else if emotionAnalysis.type = "neutral" then neutralResponses
  else neutralResponses

/-- The demo-branch reply selection of the message endpoint
(src/server.js:294-296): index `min(messageCount - 1, ladder.length - 1)`. -/
def demoReplySelection (messageCount : Nat) (emotionAnalysis : EmotionResult) : String :=
  let adaptiveResponses := generateDemoResponses messageCount emotionAnalysis
  let responseIndex := min (messageCount - 1) (adaptiveResponses.length - 1)
  adaptiveResponses.getD responseIndex ""

/-- The five distinct instruction templates `generateAdaptivePrompt`
(src/server.js:379-467) can return, one constructor per `return` site. -/
inductive PromptState where
  | initialQuestion
  | deepenDetail
  | emotionProbe
  | topicBroaden
  | wrapUp
deriving DecidableEq, Repr

/-- Branch structure of `generateAdaptivePrompt` (src/server.js:379-467),
mapping each `return` of a prompt template to its `PromptState`. The branch
conditions depend only on `messageCount`: `messageCount === 1` first, then
`questionType = ((messageCount - 1) % 3) + 1` selects 1/2/3, and for
`questionType` 3 the value `cycleCount = ⌊(messageCount - 1) / 3⌋ + 1`
distinguishes wrap-up (`cycleCount >= 3`) from topic-broadening. -/
def generateAdaptivePromptState (messageCount : Nat) : PromptState :=
  if messageCount = 1 then PromptState.initialQuestion
  else if (messageCount - 1) % 3 + 1 = 1 then PromptState.deepenDetail
  else if (messageCount - 1) % 3 + 1 = 2 then PromptState.emotionProbe
  else if 3 ≤ (messageCount - 1) / 3 + 1 then PromptState.wrapUp
  else PromptState.topicBroaden

/-- Message role (`'user'` / `'assistant'` in src/server.js). -/
inductive Role where
  | user
  | assistant
deriving DecidableEq, Repr

/-- One chat message as pushed onto `session.messages`
(src/server.js:244-248): role, content and a wall-clock timestamp. -/
structure Message where
  role : Role
  content : String
  timestamp : Nat
deriving DecidableEq, Repr

/-- `session.status` values observed in src/server.js: `'active'` at start,
`'completed'` after summarization. -/
inductive SessionStatus where
  | active
  | completed
deriving DecidableEq, Repr

/-- A chat session as stored in `chatSessions`
(src/server.js:110-115, 651-653). -/
structure Session where
  id : String
  messages : List Message
  startTime : Nat
  status : SessionStatus
  endTime : Option Nat
  summary : Option String
deriving DecidableEq, Repr

/-- The `chatSessions` map (src/server.js:39) as an association list. -/
abbrev Store := List (String × Session)

/-- `chatSessions.get` / `chatSessions.has` (first entry with the key). -/
def mapGet : Store → String → Option Session
  | [], _ => none
  | p :: rest, k => if p.1 = k then some p.2 else mapGet rest k

/-- `chatSessions.set` (and, equivalently, in-place mutation of a session
object previously obtained from the map): replace the entry with the key if
present, else append a new entry. -/
def mapSet : Store → String → Session → Store
  | [], k, v => [(k, v)]
  | p :: rest, k, v => if p.1 = k then (k, v) :: rest else p :: mapSet rest k v

/-- The user-turn counter: `session.messages.filter(msg => msg.role === 'user').length`
(src/server.js:254, 291, 317, 622). -/
def userMessagesCount (messages : List Message) : Nat :=
  (messages.filter (fun m => decide (m.role = Role.user))).length

/-- Greeting returned by the start-session endpoint (src/server.js:120). -/
def startGreeting : String :=
  "こんにちは！今日はどんなことがありましたか？音声またはテキストで自由にお話しください。"

/-- Successful JSON body of `/api/chat/start` (src/server.js:117-121). -/
structure StartResponse where
  success : Bool
  sessionId : String
  message : String
deriving DecidableEq, Repr

/-- `/api/chat/start` (src/server.js:108-122): session id is
`Date.now().toString()`, the fresh session is stored via `chatSessions.set`. -/
def startSession (store : Store) (nowMs : Nat) : Store × StartResponse :=
  let sessionId := Nat.repr nowMs
  let store' := mapSet store sessionId
    { id := sessionId, messages := [], startTime := nowMs,
      status := SessionStatus.active, endTime := none, summary := none }
  (store', { success := true, sessionId := sessionId, message := startGreeting })

/-- Outcome of one call to the external text-generation provider:
a returned text or a thrown error. -/
inductive GenOutcome where
  | ok (text : String)
  | fail (err : String)
deriving DecidableEq, Repr

/-- JSON reply of `/api/chat/message`: either the 400 unknown-session error
(src/server.js:240) or the success shape (src/server.js:277-283, 304-310,
327-333). -/
inductive ChatResponse where
  | err400 (error : String)
  | ok (response : String) (messageCount : Nat) (canSummarize : Bool) (mode : String)
deriving DecidableEq, Repr

/-- The hard-coded, emotion-independent fallback ladder of the message
endpoint's catch handler (src/server.js:318-323). -/
def fallbackResponses : List String :=
  ["今日はどんな一日でしたか？",
   "その時はどんな気持ちでしたか？",
   "他にも印象に残ったことはありますか？",
   "お話を聞かせていただき、ありがとうございました。日記にまとめてみませんか？"]

/-- `/api/chat/message` (src/server.js:228-335). The user message is pushed
onto the session history first (src/server.js:244-248; in JS this mutates the
object held by the map, modelled as `mapSet`). With GCP configured, the
provider outcome decides between the success path (src/server.js:253-283) and
the catch handler (src/server.js:313-334); otherwise the demo branch runs
(src/server.js:290-310). The prompt handed to the provider is shaped by
`generateAdaptivePromptState`; the provider's reply is the `GenOutcome`. -/
def postMessage (gcpConfigured : Bool) (store : Store) (sessionId message : String)
    (gen : GenOutcome) (now : Nat) : Store × ChatResponse :=
  match mapGet store sessionId with
  | none => (store, ChatResponse.err400 "セッションが見つかりません")
  | some session =>
    let session1 : Session :=
      { session with messages :=
          session.messages ++ [{ role := Role.user, content := message, timestamp := now }] }
    let store1 := mapSet store sessionId session1
    if gcpConfigured then
      match gen with
      | GenOutcome.ok text =>
        let messageCount := userMessagesCount session1.messages
        let aiResponse := jsTrimString text
        let session2 : Session :=
          { session1 with messages :=
              session1.messages ++ [{ role := Role.assistant, content := aiResponse, timestamp := now }] }
        let store2 := mapSet store1 sessionId session2
        (store2, ChatResponse.ok aiResponse session2.messages.length
          (decide (3 ≤ messageCount)) "gcp_improved")
      | GenOutcome.fail _err =>
        let c := userMessagesCount session1.messages
        let messageCount := if c = 0 then 1 else c
        let responseIndex := min (messageCount - 1) (fallbackResponses.length - 1)
        (store1, ChatResponse.ok (fallbackResponses.getD responseIndex "")
          (messageCount * 2) (decide (3 ≤ messageCount)) "demo_fallback_improved")
    else
      let messageCount := userMessagesCount session1.messages
      let emotionAnalysis := analyzeUserEmotion message
      let aiResponse := demoReplySelection messageCount emotionAnalysis
      let session2 : Session :=
        { session1 with messages :=
            session1.messages ++ [{ role := Role.assistant, content := aiResponse, timestamp := now }] }
      let store2 := mapSet store1 sessionId session2
      (store2, ChatResponse.ok aiResponse session2.messages.length
        (decide (3 ≤ messageCount)) "demo_improved")

/-- JS `Math.round` on rationals: round half toward positive infinity. -/
def jsRound (q : ℚ) : ℤ := ⌊q + 1 / 2⌋

/-- JSON reply of `/api/chat/summarize`: the 400 unknown-session error
(src/server.js:618) or the success shape (src/server.js:657-663, 682-688,
710-716). -/
inductive SummarizeResponse where
  | err400 (error : String)
  | ok (diary : String) (conversationCount : Nat) (duration : ℤ) (mode : String)
deriving DecidableEq, Repr

/-- The fully generic fallback diary of the summarize catch handler
(src/server.js:698-702); a fixed constant, mentioning nothing from the
conversation. -/
def fallbackDiary : String :=
  "今日は特別な一日でした。様々な出来事があり、多くのことを感じ、考えることができました。\n\n日々の小さな出来事の中にも、大切な意味や価値を見つけることができます。今日もそんな瞬間がいくつもありました。\n\nこれからも一日一日を大切に過ごしていきたいと思います。今日という日に感謝しながら。"

/-- The content-derived demo-mode summary (src/server.js:671-676): embeds the
first 50 characters of the space-joined user messages. -/
def demoSummaryText (userMessages : List Message) : String :=
  "今日は心温まる一日を過ごすことができました。" ++
    ((String.intercalate " " (userMessages.map (fun m => m.content))).data.take 50).asString ++
    "...について振り返りながら、改めて日々の大切さを感じました。\n\n対話を通じて自分の気持ちを整理することで、普段気づかない小さな幸せや感動に気づくことができました。こうした何気ない瞬間にこそ、生活の豊かさがあるのかもしれません。\n\n明日もまた新しい発見や体験があることを楽しみにしながら、今日という日に感謝の気持ちを込めて、この日記を締めくくりたいと思います。"

/-- `/api/chat/summarize` (src/server.js:611-718). With GCP configured, the
provider outcome selects the success path (src/server.js:626-663) or the catch
handler (src/server.js:691-717); without it, the demo branch runs
(src/server.js:669-689). Durations are `Math.round((endTime - startTime)/1000/60)`. -/
def summarize (gcpConfigured : Bool) (store : Store) (sessionId : String)
    (gen : GenOutcome) (now : Nat) : Store × SummarizeResponse :=
  match mapGet store sessionId with
  | none => (store, SummarizeResponse.err400 "セッションが見つかりません")
  | some session =>
    let userMessages := session.messages.filter (fun m => decide (m.role = Role.user))
    if gcpConfigured then
      match gen with
      | GenOutcome.ok text =>
        let session' := { session with
          status := SessionStatus.completed, summary := some text, endTime := some now }
        (mapSet store sessionId session',
         SummarizeResponse.ok text userMessages.length
           (jsRound (((now : ℚ) - (session.startTime : ℚ)) / 1000 / 60)) "gcp")
      | GenOutcome.fail _err =>
        let session' := { session with
          status := SessionStatus.completed, summary := some fallbackDiary, endTime := some now }
        (mapSet store sessionId session',
         SummarizeResponse.ok fallbackDiary userMessages.length
           (jsRound (((now : ℚ) - (session.startTime : ℚ)) / 1000 / 60)) "demo_fallback")
    else
      let summaryDiary := demoSummaryText userMessages
      let session' := { session with
        status := SessionStatus.completed, summary := some summaryDiary, endTime := some now }
      (mapSet store sessionId session',
       SummarizeResponse.ok summaryDiary userMessages.length
         (jsRound (((now : ℚ) - (session.startTime : ℚ)) / 1000 / 60)) "demo")

/-- Observable actions of the speech-to-text demo branch
(src/server.js:181-206), in execution order: the temp-file unlink and the JSON
response with its HTTP status. -/
inductive SttAction where
  | unlink
  | respond (status : Nat) (success : Bool) (error : String) (mode : String)
deriving DecidableEq, Repr

/-- The demo branch of `/api/speech-to-text` (src/server.js:181-206), reached
when GCP is unconfigured or the cloud speech call failed: delete the uploaded
temp file first (src/server.js:183), then answer 400 according to
`fileSizeKB = req.file.size / 1024`. The `res.json({success:true,...})` at
src/server.js:208-213 is dead code behind the unconditional `return`. -/
def speechDemoBranch (fileSizeBytes : Nat) : List SttAction :=
  SttAction.unlink ::
    (if (fileSizeBytes : ℚ) / 1024 < 1 then
      [SttAction.respond 400 false "音声が検出されませんでした。もう少し長く話してください。" "demo"]
    else if 500 < (fileSizeBytes : ℚ) / 1024 then
      [SttAction.respond 400 false "音声が長すぎます。60秒以内で話してください。" "demo"]
    else
      [SttAction.respond 400 false "デモモードでは音声認識は利用できません。" "demo"])

/-- Characters removed by the markup-stripping regex of the title endpoint
(src/server.js:538). -/
def markupChars : List Char :=
  ['*', '_', Char.ofNat 96, '#', '[', ']', '(', ')', Char.ofNat 123, Char.ofNat 125, '|', '\\', '~']

/-- Whitespace recognized by JS `\s` / `trim()` (the subset relevant here). -/
def isJsSpace (c : Char) : Bool :=
  c = ' ' || c = '\t' || c = '\n' || c = '\r' ||
    c = Char.ofNat 11 || c = Char.ofNat 12 || c = Char.ofNat 0xa0 ||
    c = Char.ofNat 0x3000 || c = Char.ofNat 0xfeff

/-- JS `String.prototype.trim`: strip leading and trailing whitespace. -/
def jsTrim (l : List Char) : List Char :=
  ((l.dropWhile fun c => isJsSpace c).reverse.dropWhile fun c => isJsSpace c).reverse

/-- `title.replace(/[\*_\x60#\[\]()\x7b\x7d|\\~]/g, '')` (src/server.js:538). -/
def stripMarkup (l : List Char) : List Char :=
  l.filter fun c => decide (c ∉ markupChars)

/-- Opening-quote class of `title.replace(/^["「『]/, '')` (src/server.js:539). -/
def openingQuotes : List Char := ['"', '「', '『']

/-- Closing-quote class of `title.replace(/["」』]$/, '')` (src/server.js:539). -/
def closingQuotes : List Char := ['"', '」', '』']

/-- Strip one leading quote character (src/server.js:539, first replace). -/
def stripLeadingQuote : List Char → List Char
  | [] => []
  | c :: rest => if c ∈ openingQuotes then rest else c :: rest

/-- Strip one trailing quote character (src/server.js:539, second replace). -/
def stripTrailingQuote (l : List Char) : List Char :=
  match l.getLast? with
  | some c => if c ∈ closingQuotes then l.dropLast else l
  | none => l

/-- The literal label of `title.replace(/^タイトル[：:]?/, '')` (src/server.js:540). -/
def titleLabel : List Char := "タイトル".data

/-- Strip a leading "タイトル" label with an optional colon (src/server.js:540):
when the label is a prefix, drop it, plus one more character when a full-width
or ASCII colon follows. -/
def stripTitleLabel (l : List Char) : List Char :=
  if titleLabel.isPrefixOf l then
    if (l.drop titleLabel.length).head? = some '：' ∨ (l.drop titleLabel.length).head? = some ':' then
      l.drop (titleLabel.length + 1)
    else l.drop titleLabel.length
  else l

/-- Scanner behind `removeDotRuns`, tracking the previous character: a period
belongs to a run of length ≥ 2 (and is removed) exactly when the previous or
the next character is also a period. -/
def removeDotRunsGo : Option Char → List Char → List Char
  | _, [] => []
  | prev, c :: rest =>
    if c = '.' ∧ (prev = some '.' ∨ rest.head? = some '.') then removeDotRunsGo (some c) rest
    else c :: removeDotRunsGo (some c) rest

/-- `title.replace(/\.{2,}/g, '')` (src/server.js:541): delete every maximal
run of two or more period characters, keeping isolated periods — i.e., delete
exactly the periods adjacent to another period. -/
def removeDotRuns (l : List Char) : List Char :=
  removeDotRunsGo none l

/-- `title.replace(/[…]/g, '')` (src/server.js:542). -/
def removeEllipsis (l : List Char) : List Char :=
  l.filter fun c => decide (c ≠ '…')

/-- `title.replace(/\s+/g, '')` (src/server.js:543). -/
def removeJsSpaces (l : List Char) : List Char :=
  l.filter fun c => !isJsSpace c

/-- `if (title.length > 12) title = title.substring(0, 12)` (src/server.js:546-548). -/
def truncateTo12 (l : List Char) : List Char :=
  if 12 < l.length then l.take 12 else l

/-- The full cleaning pipeline applied to the generator's title text in source
order (src/server.js:535-548): trim, strip markup, strip one leading and one
trailing quote, strip a leading title label then trim, delete dot runs, delete
ellipses, delete whitespace, truncate to 12 characters. -/
def cleanedTitle (raw : List Char) : List Char :=
  truncateTo12 (removeJsSpaces (removeEllipsis (removeDotRuns (jsTrim
    (stripTitleLabel (stripTrailingQuote (stripLeadingQuote (stripMarkup (jsTrim raw)))))))))

/-- The date-based fallback title `` `${month}月${day}日の日記` ``
(src/server.js:552-555). -/
def fallbackTitle (month day : Nat) : List Char :=
  (Nat.repr month).data ++ '月' :: (Nat.repr day).data ++ "日の日記".data

/-- Final title of the live path of `/api/generate-title`
(src/server.js:535-556): the cleaned title, or the date fallback whenever the
cleaned result is empty or shorter than 2 characters. -/
def finalTitle (raw : List Char) (month day : Nat) : List Char :=
  if (cleanedTitle raw).isEmpty || (cleanedTitle raw).length < 2 then fallbackTitle month day
  else cleanedTitle raw

/-- Decimal digit list of `n`, structural version of the fueled
`Nat.toDigitsCore 10` used by `Nat.repr`. -/
def digitsOf (n : Nat) : List Char :=
  if n < 10 then [Nat.digitChar n]
  else digitsOf (n / 10) ++ [Nat.digitChar (n % 10)]
decreasing_by omega

/-- Numeric value of a decimal digit character. -/
def digitVal (c : Char) : Nat := c.toNat - 48

/-- A concrete store with one active empty session keyed "1", used by the
concrete counterexample and witness instances. -/
def sampleStore : Store :=
  [("1", { id := "1", messages := [], startTime := 0,
           status := SessionStatus.active, endTime := none, summary := none })]

theorem mapGet_mapSet_self (m : Store) (k : String) (v : Session) :
    mapGet (mapSet m k v) k = some v := by
  induction m with
  | nil => simp [mapGet, mapSet]
  | cons p rest ih =>
    by_cases hp : p.1 = k
    · simp [mapGet, mapSet, hp]
    · simp [mapGet, mapSet, hp, ih]

theorem mapGet_mapSet_ne (m : Store) {k k' : String} (v : Session) (h : k' ≠ k) :
    mapGet (mapSet m k v) k' = mapGet m k' := by
  have hk : ¬ k = k' := fun e => h e.symm
  induction m with
  | nil => simp [mapGet, mapSet, hk]
  | cons p rest ih =>
    by_cases hp : p.1 = k
    · simp [mapGet, mapSet, hp, hk]
    · simp [mapGet, mapSet, hp, ih]

theorem userMessagesCount_append_user (messages : List Message) (content : String) (t : Nat) :
    userMessagesCount (messages ++ [{ role := Role.user, content := content, timestamp := t }]) =
      userMessagesCount messages + 1 := by
  simp [userMessagesCount, List.filter_append]

/-- CLAIM C2: for every turnCount ≥ 1 the prompt selector is the pure function
of questionType = ((turnCount−1) mod 3) + 1 and cycleCount = ⌊(turnCount−1)/3⌋ + 1
described in the spec: initial-question at turnCount 1, deepen-detail when
questionType = 1 and turnCount > 1, emotion-probe when questionType = 2,
topic-broaden when questionType = 3 and cycleCount < 3, wrap-up when
questionType = 3 and cycleCount ≥ 3. -/
theorem c2_prompt_state_selection (turnCount : Nat) (h : 1 ≤ turnCount) :
    (turnCount = 1 → generateAdaptivePromptState turnCount = PromptState.initialQuestion) ∧
    ((turnCount - 1) % 3 + 1 = 1 → 1 < turnCount →
      generateAdaptivePromptState turnCount = PromptState.deepenDetail) ∧
    ((turnCount - 1) % 3 + 1 = 2 →
      generateAdaptivePromptState turnCount = PromptState.emotionProbe) ∧
    ((turnCount - 1) % 3 + 1 = 3 → (turnCount - 1) / 3 + 1 < 3 →
      generateAdaptivePromptState turnCount = PromptState.topicBroaden) ∧
    ((turnCount - 1) % 3 + 1 = 3 → 3 ≤ (turnCount - 1) / 3 + 1 →
      generateAdaptivePromptState turnCount = PromptState.wrapUp) := by
  refine ⟨fun h1 => ?_, fun hq hgt => ?_, fun hq => ?_, fun hq hc => ?_, fun hq hc => ?_⟩ <;>
    simp only [generateAdaptivePromptState] <;>
    split_ifs <;> first | rfl | (exfalso; omega)

/-- Witness for C2 at turnCount = 5: questionType = 2, so the emotion-probe
state is selected. -/
theorem c2_prompt_state_selection_witness :
    generateAdaptivePromptState 5 = PromptState.emotionProbe :=
  (c2_prompt_state_selection 5 (by decide)).2.2.1 (by decide)

/-- CLAIM C4: the emotion classifier tests positive, then negative, then
neutral keywords for substring membership in the lowercased text, returning the
first matching category with confidence 0.8, else neutral with 0.5; it is a
total function with no error outcome. -/
theorem c4_emotion_priority_order (message : String) :
    analyzeUserEmotion message =
      (if (emotionEntries.get ⟨0, by decide⟩).2.any
            (fun keyword => strIncludes (jsToLowerCase message) keyword) then
        { type := "positive", confidence := 8 / 10 }
      else if (emotionEntries.get ⟨1, by decide⟩).2.any
            (fun keyword => strIncludes (jsToLowerCase message) keyword) then
        { type := "negative", confidence := 8 / 10 }
      else if (emotionEntries.get ⟨2, by decide⟩).2.any
            (fun keyword => strIncludes (jsToLowerCase message) keyword) then
        { type := "neutral", confidence := 8 / 10 }
      else { type := "neutral", confidence := 5 / 10 }) := by
  simp only [analyzeUserEmotion, emotionEntries, findEmotion, List.get]
  split_ifs <;> rfl

theorem generateDemoResponses_length (messageCount : Nat) (e : EmotionResult) :
    (generateDemoResponses messageCount e).length = 4 := by
  simp only [generateDemoResponses]
  split_ifs <;> rfl

/-- CLAIM C6: the demo-mode fallback reply is the ladder entry at index
min(turnCount−1, ladderLength−1), each ladder has exactly 4 entries, and from
turnCount 4 on the selected reply is the ladder's last entry. -/
theorem c6_demo_ladder_selection (turnCount : Nat) (h : 1 ≤ turnCount) (e : EmotionResult) :
    (generateDemoResponses turnCount e).length = 4 ∧
    demoReplySelection turnCount e =
      (generateDemoResponses turnCount e).getD (min (turnCount - 1) 3) "" ∧
    (4 ≤ turnCount → demoReplySelection turnCount e =
      (generateDemoResponses turnCount e).getD 3 "") := by
  refine ⟨generateDemoResponses_length turnCount e, ?_, ?_⟩
  · simp only [demoReplySelection, generateDemoResponses_length]
  · intro h4
    simp only [demoReplySelection, generateDemoResponses_length]
    have : min (turnCount - 1) (4 - 1) = 3 := by omega
    rw [this]

/-- Witness for C6 at turnCount = 7 with the positive-emotion classification. -/
theorem c6_demo_ladder_selection_witness :
    (generateDemoResponses 7 { type := "positive", confidence := 8 / 10 }).length = 4 ∧
    demoReplySelection 7 { type := "positive", confidence := 8 / 10 } =
      (generateDemoResponses 7 { type := "positive", confidence := 8 / 10 }).getD (min 6 3) "" ∧
    demoReplySelection 7 { type := "positive", confidence := 8 / 10 } =
      (generateDemoResponses 7 { type := "positive", confidence := 8 / 10 }).getD 3 "" :=
  have h := c6_demo_ladder_selection 7 (by decide) { type := "positive", confidence := 8 / 10 }
  ⟨h.1, h.2.1, h.2.2 (by decide)⟩

/-- CLAIM C9: when the generation call fails after the user's message was
appended, the stored session still ends with exactly that appended user
message — the catch handler neither removes nor rolls back the append. -/
theorem c9_user_message_durable (store : Store) (sessionId message err : String)
    (now : Nat) (session : Session) (h : mapGet store sessionId = some session) :
    mapGet (postMessage true store sessionId message (GenOutcome.fail err) now).1 sessionId =
      some { session with messages :=
        session.messages ++ [{ role := Role.user, content := message, timestamp := now }] } := by
  simp only [postMessage, h]
  exact mapGet_mapSet_self ..

/-- Witness for C9 on the sample store. -/
theorem c9_user_message_durable_witness :
    mapGet (postMessage true sampleStore "1" "今日は楽しかった" (GenOutcome.fail "boom") 7).1 "1" =
      some { id := "1",
             messages := [{ role := Role.user, content := "今日は楽しかった", timestamp := 7 }],
             startTime := 0, status := SessionStatus.active, endTime := none, summary := none } :=
  c9_user_message_durable sampleStore "1" "今日は楽しかった" "boom" 7
    { id := "1", messages := [], startTime := 0,
      status := SessionStatus.active, endTime := none, summary := none } rfl

/-- AMENDED CLAIM C1: when the live generation call fails on a known session,
the endpoint still responds successfully (success shape, HTTP 200), but the
reply is drawn from the fixed, emotion-independent 4-entry catch-handler ladder
`fallbackResponses` indexed by min(turnCount−1, 3); the response is identical
for every provider error, so the raw error is never surfaced. -/
theorem c1_error_path_fixed_ladder (store : Store) (sessionId message err : String)
    (now : Nat) (session : Session) (h : mapGet store sessionId = some session) :
    (postMessage true store sessionId message (GenOutcome.fail err) now).2 =
      ChatResponse.ok
        (fallbackResponses.getD (min (userMessagesCount session.messages) 3) "")
        ((userMessagesCount session.messages + 1) * 2)
        (decide (3 ≤ userMessagesCount session.messages + 1)) "demo_fallback_improved" ∧
    (∀ err', (postMessage true store sessionId message (GenOutcome.fail err) now).2 =
      (postMessage true store sessionId message (GenOutcome.fail err') now).2) := by
  constructor
  · simp only [postMessage, h, userMessagesCount_append_user]
    simp [fallbackResponses]
  · intro err'
    simp only [postMessage, h]

/-- Witness for C1 (amended) on the sample store with a positive-keyword
message: turn count 1, hence ladder entry 0, independent of the error text. -/
theorem c1_error_path_fixed_ladder_witness :
    (postMessage true sampleStore "1" "楽しい" (GenOutcome.fail "provider exploded") 0).2 =
      ChatResponse.ok (fallbackResponses.getD (min 0 3) "") 2 (decide (3 ≤ 1))
        "demo_fallback_improved" ∧
    (postMessage true sampleStore "1" "楽しい" (GenOutcome.fail "provider exploded") 0).2 =
      (postMessage true sampleStore "1" "楽しい" (GenOutcome.fail "other error") 0).2 :=
  have h := c1_error_path_fixed_ladder sampleStore "1" "楽しい" "provider exploded" 0
    { id := "1", messages := [], startTime := 0,
      status := SessionStatus.active, endTime := none, summary := none } rfl
  ⟨h.1, h.2 "other error"⟩

/-- COUNTEREXAMPLE to C1 as stated: for the positive-keyword message "楽しい"
at turn 1 on a known session, the error-path reply is the fixed catch-handler
text, which differs from entry 0 of the positive-emotion ladder of the
Response Fallback Generator that the claim requires. -/
theorem c1_counterexample :
    (postMessage true sampleStore "1" "楽しい" (GenOutcome.fail "provider error") 0).2 =
      ChatResponse.ok "今日はどんな一日でしたか？" 2 false "demo_fallback_improved" ∧
    (generateDemoResponses 1 (analyzeUserEmotion "楽しい")).getD (min 0 3) "" =
      "それは素晴らしいですね！どんな瞬間が一番印象的でしたか？" ∧
    ("今日はどんな一日でしたか？" : String) ≠
      "それは素晴らしいですね！どんな瞬間が一番印象的でしたか？" := by
  refine ⟨by decide, by decide, by decide⟩

/-- AMENDED CLAIM C8: every successful post-message response carries, in its
messageCount field, the total number of messages of both roles held by the
session at reply time (user message and assistant reply included) on the live
and demo paths, and twice the user-turn count on the error-fallback path — not
the count of role-user messages alone. -/
theorem c8_message_count_field (store : Store) (sessionId message text err : String)
    (now : Nat) (session : Session) (h : mapGet store sessionId = some session) :
    ((postMessage false store sessionId message (GenOutcome.ok text) now).2 =
      ChatResponse.ok
        (demoReplySelection (userMessagesCount session.messages + 1) (analyzeUserEmotion message))
        (session.messages.length + 2)
        (decide (3 ≤ userMessagesCount session.messages + 1)) "demo_improved") ∧
    ((postMessage true store sessionId message (GenOutcome.ok text) now).2 =
      ChatResponse.ok (jsTrimString text) (session.messages.length + 2)
        (decide (3 ≤ userMessagesCount session.messages + 1)) "gcp_improved") ∧
    ((postMessage true store sessionId message (GenOutcome.fail err) now).2 =
      ChatResponse.ok (fallbackResponses.getD (min (userMessagesCount session.messages) 3) "")
        ((userMessagesCount session.messages + 1) * 2)
        (decide (3 ≤ userMessagesCount session.messages + 1)) "demo_fallback_improved") := by
  refine ⟨?_, ?_, ?_⟩
  · simp only [postMessage, h, userMessagesCount_append_user]
    simp
  · simp only [postMessage, h, userMessagesCount_append_user]
    simp
  · simp only [postMessage, h, userMessagesCount_append_user]
    simp [fallbackResponses]

/-- Witness for C8 (amended) on the sample store. -/
theorem c8_message_count_field_witness :
    (postMessage false sampleStore "1" "こんにちは" (GenOutcome.ok "x") 0).2 =
      ChatResponse.ok (demoReplySelection 1 (analyzeUserEmotion "こんにちは")) 2
        (decide (3 ≤ 1)) "demo_improved" :=
  (c8_message_count_field sampleStore "1" "こんにちは" "x" "e" 0
    { id := "1", messages := [], startTime := 0,
      status := SessionStatus.active, endTime := none, summary := none } rfl).1

/-- COUNTEREXAMPLE to C8 as stated: on the demo path at turn 1 the session
holds exactly one role-user message when the reply is sent, yet the response's
messageCount field is 2 (the total of both roles), not 1. -/
theorem c8_counterexample :
    (postMessage false sampleStore "1" "こんにちは" (GenOutcome.ok "") 0).2 =
      ChatResponse.ok "そうだったんですね。その時はどんな感じでしたか？" 2 false "demo_improved" ∧
    mapGet (postMessage false sampleStore "1" "こんにちは" (GenOutcome.ok "") 0).1 "1" =
      some { id := "1",
             messages :=
               [{ role := Role.user, content := "こんにちは", timestamp := 0 },
                { role := Role.assistant,
                  content := "そうだったんですね。その時はどんな感じでしたか？", timestamp := 0 }],
             startTime := 0, status := SessionStatus.active, endTime := none, summary := none } ∧
    userMessagesCount
      [{ role := Role.user, content := "こんにちは", timestamp := 0 },
       { role := Role.assistant,
         content := "そうだったんですね。その時はどんな感じでしたか？", timestamp := 0 }] = 1 ∧
    (2 : Nat) ≠ 1 := by
  refine ⟨by decide, by decide, by decide, by decide⟩

theorem toDigitsCore_eq_digitsOf :
    ∀ (fuel n : Nat), n < fuel → ∀ ds : List Char,
      Nat.toDigitsCore 10 fuel n ds = digitsOf n ++ ds := by
  intro fuel
  induction fuel with
  | zero => intro n h; omega
  | succ f ih =>
    intro n h ds
    by_cases hd : n / 10 = 0
    · have hn : n < 10 := by omega
      simp [Nat.toDigitsCore, hd, digitsOf, hn, Nat.mod_eq_of_lt hn]
    · have hn : ¬ n < 10 := by omega
      have hrec := ih (n / 10) (by omega) (Nat.digitChar (n % 10) :: ds)
      simp only [Nat.toDigitsCore, hd, if_false]
      rw [hrec]
      conv_rhs => rw [digitsOf, if_neg hn]
      simp

theorem natRepr_data (n : Nat) : (Nat.repr n).data = digitsOf n := by
  unfold Nat.repr Nat.toDigits
  rw [toDigitsCore_eq_digitsOf (n + 1) n (by omega) []]
  simp [List.asString]

theorem digitVal_digitChar (d : Nat) (hd : d < 10) : digitVal (Nat.digitChar d) = d := by
  interval_cases d <;> rfl

theorem foldl_digitsOf (n : Nat) : ∀ acc : Nat,
    (digitsOf n).foldl (fun a c => a * 10 + digitVal c) acc =
      acc * 10 ^ (digitsOf n).length + n := by
  induction n using Nat.strong_induction_on with
  | _ n ih =>
    intro acc
    by_cases hn : n < 10
    · rw [digitsOf, if_pos hn]
      simp [digitVal_digitChar n hn]
    · rw [digitsOf, if_neg hn]
      rw [List.foldl_append, ih (n / 10) (by omega) acc]
      have hmod : n / 10 * 10 + n % 10 = n := by omega
      simp only [List.foldl_cons, List.foldl_nil, List.length_append, List.length_cons,
        List.length_nil, digitVal_digitChar (n % 10) (by omega)]
      generalize (digitsOf (n / 10)).length = L
      have key : (acc * 10 ^ L + n / 10) * 10 + n % 10 =
          acc * (10 ^ L * 10) + (n / 10 * 10 + n % 10) := by ring
      rw [key, hmod, pow_succ]

theorem digitsOf_inj {n m : Nat} (h : digitsOf n = digitsOf m) : n = m := by
  have h1 := foldl_digitsOf n 0
  have h2 := foldl_digitsOf m 0
  rw [h] at h1
  simp only [Nat.zero_mul, Nat.zero_add] at h1 h2
  exact h1.symm.trans h2

theorem natRepr_injective {n m : Nat} (h : Nat.repr n = Nat.repr m) : n = m :=
  digitsOf_inj (by rw [← natRepr_data, ← natRepr_data, h])

/-- AMENDED CLAIM C3: the session identifier is the decimal string of the
start call's millisecond clock reading, so two start-session calls at distinct
clock readings return distinct identifiers and the later call leaves the
earlier call's stored session unchanged; two calls within the same millisecond
return the same identifier and the later overwrites the earlier session. -/
theorem c3_start_session_distinct_clock (store : Store) (t1 t2 : Nat) (h : t1 ≠ t2) :
    (startSession store t1).2.sessionId ≠
      (startSession (startSession store t1).1 t2).2.sessionId ∧
    mapGet (startSession (startSession store t1).1 t2).1 ((startSession store t1).2.sessionId) =
      mapGet (startSession store t1).1 ((startSession store t1).2.sessionId) := by
  constructor
  · intro e
    exact h (natRepr_injective e)
  · exact mapGet_mapSet_ne _ _ (fun e => h (natRepr_injective e))

/-- Witness for C3 (amended) at clock readings 1 and 2 on the empty store. -/
theorem c3_start_session_distinct_clock_witness :
    (startSession [] 1).2.sessionId ≠ (startSession (startSession [] 1).1 2).2.sessionId ∧
    mapGet (startSession (startSession [] 1).1 2).1 ((startSession [] 1).2.sessionId) =
      mapGet (startSession [] 1).1 ((startSession [] 1).2.sessionId) :=
  c3_start_session_distinct_clock [] 1 2 (by decide)

/-- COUNTEREXAMPLE to C3 as stated: two start-session calls at the same
millisecond (clock reading 5) return the same identifier, and the second call
resets the stored session — the message history recorded between the two calls
is destroyed. -/
theorem c3_counterexample :
    (startSession [] 5).2.sessionId = (startSession (startSession [] 5).1 5).2.sessionId ∧
    mapGet (postMessage false (startSession [] 5).1 "5" "今日は楽しい" (GenOutcome.ok "") 6).1 "5" ≠
      some { id := "5", messages := [], startTime := 5,
             status := SessionStatus.active, endTime := none, summary := none } ∧
    mapGet (startSession
        (postMessage false (startSession [] 5).1 "5" "今日は楽しい" (GenOutcome.ok "") 6).1 5).1 "5" =
      some { id := "5", messages := [], startTime := 5,
             status := SessionStatus.active, endTime := none, summary := none } := by
  refine ⟨by decide, by decide, by decide⟩

theorem string_data_append (a b : String) : (a ++ b).data = a.data ++ b.data := by
  cases a
  cases b
  rfl

set_option maxRecDepth 4096 in
theorem demoSummaryText_ne_fallbackDiary (msgs : List Message) :
    demoSummaryText msgs ≠ fallbackDiary := by
  intro h
  have h3 : (demoSummaryText msgs).data[3]? = some '心' := by
    simp only [demoSummaryText, string_data_append, List.append_assoc]
    rw [List.getElem?_append_left (by decide)]
    decide
  rw [h] at h3
  have h4 : fallbackDiary.data[3]? = some '特' := by decide
  rw [h4] at h3
  exact absurd h3 (by decide)

/-- CLAIM C7: when the generation call throws during summarize on a known
session, the session is marked completed with the fixed generic fallback
narrative as summary, the end time is stamped with the current clock, the
response reports that narrative with duration Math.round((end − start)/1000/60)
minutes — and the narrative differs from the content-derived demo narrative for
every possible message history (it embeds no conversation content). -/
theorem c7_summarize_error_path (store : Store) (sessionId err : String) (now : Nat)
    (session : Session) (h : mapGet store sessionId = some session) :
    mapGet (summarize true store sessionId (GenOutcome.fail err) now).1 sessionId =
      some { session with
        status := SessionStatus.completed, summary := some fallbackDiary, endTime := some now } ∧
    (summarize true store sessionId (GenOutcome.fail err) now).2 =
      SummarizeResponse.ok fallbackDiary
        (session.messages.filter (fun m => decide (m.role = Role.user))).length
        (jsRound (((now : ℚ) - (session.startTime : ℚ)) / 1000 / 60)) "demo_fallback" ∧
    (∀ msgs : List Message, demoSummaryText msgs ≠ fallbackDiary) := by
  refine ⟨?_, ?_, demoSummaryText_ne_fallbackDiary⟩
  · simp only [summarize, h]
    exact mapGet_mapSet_self ..
  · simp [summarize, h]

/-- Witness for C7 on the sample store at end time 90000 ms (1.5 minutes after
the session start, so the rounded duration is jsRound applied to 3/2). -/
theorem c7_summarize_error_path_witness :
    mapGet (summarize true sampleStore "1" (GenOutcome.fail "boom") 90000).1 "1" =
      some { id := "1", messages := [], startTime := 0, status := SessionStatus.completed,
             endTime := some 90000, summary := some fallbackDiary } ∧
    (summarize true sampleStore "1" (GenOutcome.fail "boom") 90000).2 =
      SummarizeResponse.ok fallbackDiary 0
        (jsRound (((90000 : ℚ) - (0 : ℚ)) / 1000 / 60)) "demo_fallback" ∧
    demoSummaryText [] ≠ fallbackDiary :=
  have h := c7_summarize_error_path sampleStore "1" "boom" 90000
    { id := "1", messages := [], startTime := 0,
      status := SessionStatus.active, endTime := none, summary := none } rfl
  ⟨h.1, h.2.1, h.2.2 []⟩

/-- CLAIM C10: on the speech-to-text demo path every file size — below 1 KB,
between 1 KB and 500 KB, and above 500 KB alike — produces an unsuccessful
HTTP 400 response in demo mode, and the temporary uploaded file is unlinked
strictly before the response is sent. -/
theorem c10_speech_demo_always_400 (fileSizeBytes : Nat) :
    (speechDemoBranch fileSizeBytes =
        [SttAction.unlink,
         SttAction.respond 400 false "音声が検出されませんでした。もう少し長く話してください。" "demo"] ∨
     speechDemoBranch fileSizeBytes =
        [SttAction.unlink,
         SttAction.respond 400 false "音声が長すぎます。60秒以内で話してください。" "demo"] ∨
     speechDemoBranch fileSizeBytes =
        [SttAction.unlink,
         SttAction.respond 400 false "デモモードでは音声認識は利用できません。" "demo"]) := by
  simp only [speechDemoBranch]
  split_ifs
  · exact Or.inl rfl
  · exact Or.inr (Or.inl rfl)
  · exact Or.inr (Or.inr rfl)

theorem mem_of_mem_jsTrim {l : List Char} {c : Char} (h : c ∈ jsTrim l) : c ∈ l := by
  simp only [jsTrim, List.mem_reverse] at h
  have h2 := (List.dropWhile_suffix _).subset h
  have h3 := List.mem_reverse.mp h2
  exact (List.dropWhile_suffix _).subset h3

theorem mem_of_mem_stripLeadingQuote {l : List Char} {c : Char}
    (h : c ∈ stripLeadingQuote l) : c ∈ l := by
  cases l with
  | nil => simpa [stripLeadingQuote] using h
  | cons a t =>
    simp only [stripLeadingQuote] at h
    split_ifs at h
    · exact List.mem_cons_of_mem _ h
    · exact h

theorem mem_of_mem_stripTrailingQuote {l : List Char} {c : Char}
    (h : c ∈ stripTrailingQuote l) : c ∈ l := by
  unfold stripTrailingQuote at h
  rcases hl : l.getLast? with _ | a <;> rw [hl] at h
  · exact h
  · by_cases hc2 : a ∈ closingQuotes
    · have h2 : c ∈ l.dropLast := by simpa [hc2] using h
      exact List.dropLast_subset l h2
    · simpa [hc2] using h

theorem mem_of_mem_stripTitleLabel {l : List Char} {c : Char}
    (h : c ∈ stripTitleLabel l) : c ∈ l := by
  unfold stripTitleLabel at h
  split_ifs at h
  · exact List.drop_subset _ _ h
  · exact List.drop_subset _ _ h
  · exact h

theorem mem_of_mem_removeDotRunsGo {c : Char} :
    ∀ (prev : Option Char) (l : List Char), c ∈ removeDotRunsGo prev l → c ∈ l := by
  intro prev l
  induction l generalizing prev with
  | nil => intro h; simpa [removeDotRunsGo] using h
  | cons a t ih =>
    intro h
    simp only [removeDotRunsGo] at h
    split_ifs at h
    · exact List.mem_cons_of_mem _ (ih (some a) h)
    · rcases List.mem_cons.mp h with rfl | h2
      · exact List.mem_cons_self ..
      · exact List.mem_cons_of_mem _ (ih (some a) h2)

theorem mem_of_mem_removeDotRuns {l : List Char} {c : Char}
    (h : c ∈ removeDotRuns l) : c ∈ l :=
  mem_of_mem_removeDotRunsGo none l h

theorem mem_of_mem_truncateTo12 {l : List Char} {c : Char}
    (h : c ∈ truncateTo12 l) : c ∈ l := by
  unfold truncateTo12 at h
  split_ifs at h
  · exact List.take_subset _ _ h
  · exact h

/-- No character of the cleaned title is in the forbidden markup set: the
markup filter runs first and every later pipeline stage only keeps characters
of its input. -/
theorem cleanedTitle_not_markup (raw : List Char) :
    ∀ c ∈ cleanedTitle raw, c ∉ markupChars := by
  intro c hc
  unfold cleanedTitle at hc
  have h1 := mem_of_mem_truncateTo12 hc
  have h2 := (List.mem_filter.mp h1).1
  have h3 := (List.mem_filter.mp h2).1
  have h4 := mem_of_mem_removeDotRuns h3
  have h5 := mem_of_mem_jsTrim h4
  have h6 := mem_of_mem_stripTitleLabel h5
  have h7 := mem_of_mem_stripTrailingQuote h6
  have h8 := mem_of_mem_stripLeadingQuote h7
  exact of_decide_eq_true (List.mem_filter.mp h8).2

theorem cleanedTitle_length_le (raw : List Char) : (cleanedTitle raw).length ≤ 12 := by
  unfold cleanedTitle truncateTo12
  split_ifs with h
  · simp [List.length_take]
  · omega

theorem digitsOf_ne_nil (n : Nat) : digitsOf n ≠ [] := by
  rw [digitsOf]
  split_ifs <;> simp

theorem digitsOf_length_le_two {n : Nat} (h : n < 100) : (digitsOf n).length ≤ 2 := by
  by_cases hn : n < 10
  · rw [digitsOf, if_pos hn]
    simp
  · have h10 : n / 10 < 10 := by omega
    rw [digitsOf, if_neg hn, digitsOf, if_pos h10]
    simp

theorem mem_digitsOf {c : Char} : ∀ {n : Nat}, c ∈ digitsOf n →
    ∃ d, d < 10 ∧ c = Nat.digitChar d := by
  intro n
  induction n using Nat.strong_induction_on with
  | _ n ih =>
    intro h
    by_cases hn : n < 10
    · rw [digitsOf, if_pos hn] at h
      simp only [List.mem_singleton] at h
      exact ⟨n, hn, h⟩
    · rw [digitsOf, if_neg hn] at h
      rcases List.mem_append.mp h with h1 | h2
      · exact ih (n / 10) (by omega) h1
      · simp only [List.mem_singleton] at h2
        exact ⟨n % 10, by omega, h2⟩

theorem digitChar_not_mem_markup {d : Nat} (h : d < 10) :
    Nat.digitChar d ∉ markupChars := by
  interval_cases d <;> decide

theorem fallbackTitle_length (month day : Nat) (hm : month < 100) (hd : day < 100) :
    2 ≤ (fallbackTitle month day).length ∧ (fallbackTitle month day).length ≤ 12 := by
  have h1 := digitsOf_length_le_two hm
  have h2 := digitsOf_length_le_two hd
  have h3 : 0 < (digitsOf month).length := List.length_pos.mpr (digitsOf_ne_nil month)
  have h4 : 0 < (digitsOf day).length := List.length_pos.mpr (digitsOf_ne_nil day)
  have h5 : ("日の日記".data).length = 4 := by decide
  simp only [fallbackTitle, natRepr_data, List.length_append, List.length_cons, h5]
  omega

theorem fallbackTitle_not_markup (month day : Nat) :
    ∀ c ∈ fallbackTitle month day, c ∉ markupChars := by
  intro c hc
  unfold fallbackTitle at hc
  rw [natRepr_data, natRepr_data] at hc
  rcases List.mem_append.mp hc with h | h
  · rcases List.mem_append.mp h with h1 | h1
    · obtain ⟨d, hd, rfl⟩ := mem_digitsOf h1
      exact digitChar_not_mem_markup hd
    · rcases List.mem_cons.mp h1 with rfl | h2
      · decide
      · obtain ⟨d, hd, rfl⟩ := mem_digitsOf h2
        exact digitChar_not_mem_markup hd
  · have hsuffix : "日の日記".data = ['日', 'の', '日', '記'] := by decide
    rw [hsuffix] at h
    simp only [List.mem_cons, List.not_mem_nil, or_false] at h
    rcases h with rfl | rfl | rfl | rfl <;> decide

/-- CLAIM C5: for any raw generated title and a valid current date, the
sanitized title has length between 2 and 12 characters, contains no character
of the forbidden markup set, and equals the date fallback "<month>月<day>日の日記"
whenever the cleaned string is empty or shorter than 2 characters. -/
theorem c5_title_sanitizer (raw : List Char) (month day : Nat)
    (hm1 : 1 ≤ month) (hm2 : month ≤ 12) (hd1 : 1 ≤ day) (hd2 : day ≤ 31) :
    2 ≤ (finalTitle raw month day).length ∧
    (finalTitle raw month day).length ≤ 12 ∧
    (∀ c ∈ finalTitle raw month day, c ∉ markupChars) ∧
    ((cleanedTitle raw).length < 2 → finalTitle raw month day = fallbackTitle month day) := by
  have hfb := fallbackTitle_length month day (by omega) (by omega)
  have hfbm := fallbackTitle_not_markup month day
  unfold finalTitle
  split_ifs with hcond
  · exact ⟨hfb.1, hfb.2, hfbm, fun _ => rfl⟩
  · simp only [Bool.or_eq_true, List.isEmpty_iff, decide_eq_true_eq, not_or] at hcond
    refine ⟨by omega, cleanedTitle_length_le raw, cleanedTitle_not_markup raw, fun hs => ?_⟩
    exact absurd hs hcond.2

/-- Witness for C5: the raw title "*タイトル*" cleans to the empty string, so
on date 10/12 the result is the fallback title, within bounds. -/
theorem c5_title_sanitizer_witness :
    2 ≤ (finalTitle ("*タイトル*".data) 10 12).length ∧
    (finalTitle ("*タイトル*".data) 10 12).length ≤ 12 ∧
    ((cleanedTitle ("*タイトル*".data)).length < 2 →
      finalTitle ("*タイトル*".data) 10 12 = fallbackTitle 10 12) :=
  have h := c5_title_sanitizer ("*タイトル*".data) 10 12 (by decide) (by decide) (by decide)
    (by decide)
  ⟨h.1, h.2.1, h.2.2.2⟩

end VoiceDiary
